import Mathlib

/-!
# The tenant stage of the log-entry pipeline

A shallow embedding of `clients/pkg/logentry/stages/tenant.go`: the validation
of the three-way exclusive stage configuration, and the per-entry resolution of
the tenant identifier that is written into the label set under the reserved
tenant label.

Go maps are embedded as Mathlib finite maps (`Finmap`): finitely many keys, at
most one value per key, no order, equality by content. Reading a key is
`Finmap.lookup` (the `value, ok` pair of Go is the `Option`), and the
assignment `m[k] = v` is `Finmap.insert k v m`. The in-place mutation of the
label set by `Process` is embedded as state passing: `Process` receives the
label set and returns the label set the caller holds afterwards, together with
the debug lines handed to the logger. `tenantStage.Process` works on an allocated
label set; `tenantStage.ProcessOrPanic` is the same code on a label set that may
also be the nil map, where the assignment panics.
-/

namespace Stages

/-! ## Data model -/

/-- The error text of a configuration in which label, source and value are all empty. -/
def ErrTenantStageEmptyLabelSourceOrValue : String :=
  "label, source or value config are required"

/-- The error text of a configuration in which more than one of label, source and value is set. -/
def ErrTenantStageConflictingLabelSourceAndValue : String :=
  "label, source and value are mutually exclusive: you should set source, value or label but not all"

/-- The configuration of a tenant stage: three strings, the empty string meaning "not set". -/
structure TenantConfig where
  Label : String
  Source : String
  Value : String
  deriving DecidableEq, Repr

/-- Label names of `model.LabelSet` are strings. -/
abbrev LabelName := String

/-- Label values of `model.LabelSet` are strings. -/
abbrev LabelValue := String

/-- The `model.LabelSet` of an entry, `map[LabelName]LabelValue`, as an allocated map
(the pipeline hands every stage the map it owns for the entry). -/
abbrev LabelSet := Finmap (fun _ : LabelName => LabelValue)

/-- Modelled from the spec: the dynamically typed values (`interface{}`) held by the
extraction map, which the spec describes as "string, number, boolean, or structured" and,
for the coercion, as the closed set "string, integer, float, boolean" plus anything else.
A value outside the four scalar kinds is kept as the name of its runtime type, the only
thing this stage ever reads from it. -/
inductive Value where
  | str (s : String)
  | int (i : Int)
  | float (f : Float)
  | bool (b : Bool)
  | structured (typeName : String)

/-- The extraction map `map[string]interface{}` filled by earlier stages. -/
abbrev Extracted := Finmap (fun _ : String => Value)

/-- Modelled from the spec: `getString`, the permissive coercion of an extracted value to a
string, declared elsewhere in the package: "strings pass through; other scalar types are
converted to their textual representation", and the coercion fails for any other type. -/
def getString : Value → Except String String
  | .str s => .ok s
  | .int i => .ok (toString i)
  | .float f => .ok (toString f)
  | .bool b => .ok (if b then "true" else "false")
  | .structured _ => .error "can't convert value to string"

/-- Modelled from the spec: the text of `reflect.TypeOf(value)` as it is logged, "the value's
runtime type name". -/
def typeOf : Value → String
  | .str _ => "string"
  | .int _ => "int"
  | .float _ => "float64"
  | .bool _ => "bool"
  | .structured typeName => typeName

/-- The instant a `*time.Time` argument points to, in nanoseconds. -/
abbrev Time := Int

/-- One record handed to the logger: the key/value pairs of a `Log` call, in order. -/
abbrev LogLine := List (String × String)

/-- The record `level.Debug(logger).Log(keyvals...)` hands to the logger. -/
def debugLog (keyvals : List (String × String)) : LogLine :=
  ("level", "debug") :: keyvals

/-- The names `tenant.go` uses from the rest of the program without declaring them: the
package-level `Debug` flag and the constant `client.ReservedLabelTenantID`. -/
structure Env where
  Debug : Bool
  ReservedLabelTenantID : LabelName

/-- The stage: the configuration captured at construction. The logger field of the source is
the sink of the log lines the operations below return. -/
structure tenantStage where
  cfg : TenantConfig
  deriving DecidableEq, Repr

/-! ## Operations -/

/-- Validation of the stage configuration; `.ok ()` is the `nil` error of the source. -/
def validateTenantConfig (c : TenantConfig) : Except String Unit :=
  if c.Source = "" ∧ c.Value = "" ∧ c.Label = "" then
    .error ErrTenantStageEmptyLabelSourceOrValue
  else if (c.Source ≠ "" ∧ c.Value ≠ "") ∨ (c.Label ≠ "" ∧ c.Value ≠ "")
      ∨ (c.Source ≠ "" ∧ c.Label ≠ "") then
    .error ErrTenantStageConflictingLabelSourceAndValue
  else
    .ok ()

/-- The tenant identifier read from the extraction map under the configured source, with the
debug lines emitted on the way; the empty string when the key is missing or the value cannot
be converted. -/
def tenantStage.getTenantFromSourceField (env : Env) (s : tenantStage)
    (extracted : Extracted) : String × List LogLine :=
  match extracted.lookup s.cfg.Source with
  | none =>
    ("", if env.Debug then
        [debugLog [("msg", "the tenant source does not exist in the extracted data"),
          ("source", s.cfg.Source)]]
      else [])
  | some value =>
    match getString value with
    | .error err =>
      ("", if env.Debug then
          [debugLog [("msg", "failed to convert value to string"), ("err", err),
            ("type", typeOf value)]]
        else [])
    | .ok tenantID => (tenantID, [])

/-- The tenant identifier read from the label set under the configured label, with the debug
lines emitted on the way; the empty string when the label is missing. -/
def tenantStage.getTenantFromLabel (env : Env) (s : tenantStage)
    (labels : LabelSet) : String × List LogLine :=
  match labels.lookup s.cfg.Label with
  | none =>
    ("", if env.Debug then
        [debugLog [("msg", "the tenant source does not exist in the labels"),
          ("source", s.cfg.Source)]]
      else [])
  | some tenantID => (tenantID, [])

/-- The stage applied to one entry: the label set after the call and the debug lines emitted.
The tenant identifier comes from the first configured of source, label and value; an empty
identifier leaves the label set alone, any other is stored under the reserved tenant label.
The timestamp and the line are received and not used. -/
def tenantStage.Process (env : Env) (s : tenantStage) (labels : LabelSet)
    (extracted : Extracted) (_t : Option Time) (_entry : Option String) :
    LabelSet × List LogLine :=
  let r : String × List LogLine :=
    if s.cfg.Source ≠ "" then
      s.getTenantFromSourceField env extracted
    else if s.cfg.Label ≠ "" then
      s.getTenantFromLabel env labels
    else
      (s.cfg.Value, [])
  if r.1 = "" then
    (labels, r.2)
  else
    (labels.insert env.ReservedLabelTenantID r.1, r.2)

/-- Construction of the stage from a configuration payload. `Decode` stands for
`mapstructure.Decode` into a fresh `TenantConfig` (a library outside the repository, taken as
a parameter): it yields the decoded configuration or the decoding error. A decoding error and
a validation error are returned as they are; otherwise the stage holds the decoded
configuration. The logger of the source is handed on to the stage and read nowhere here, and
the `Stage` that `toStage` returns wraps the `tenantStage` built here. -/
def newTenantStage {Payload : Type} (Decode : Payload → Except String TenantConfig)
    (configs : Payload) : Except String tenantStage :=
  match Decode configs with
  | .error err => .error err
  | .ok cfg =>
    match validateTenantConfig cfg with
    | .error err => .error err
    | .ok () => .ok ⟨cfg⟩

/-- The run-time panic of Go on `m[k] = v` when `m` is the nil map. -/
def nilMapAssignment : String :=
  "assignment to entry in nil map"

/-- The stage applied to one entry at the level of Go values, where the label set handed in
may be the nil map (`none`) as well as an allocated one (`some m`). Reading the nil map finds
no key; writing to it panics, which is the `.error` result. On an allocated map this is
`tenantStage.Process`. -/
def tenantStage.ProcessOrPanic (env : Env) (s : tenantStage) (labels : Option LabelSet)
    (extracted : Extracted) (_t : Option Time) (_entry : Option String) :
    Except String (Option LabelSet × List LogLine) :=
  let r : String × List LogLine :=
    if s.cfg.Source ≠ "" then
      s.getTenantFromSourceField env extracted
    else if s.cfg.Label ≠ "" then
      s.getTenantFromLabel env (labels.getD ∅)
    else
      (s.cfg.Value, [])
  if r.1 = "" then
    .ok (labels, r.2)
  else
    match labels with
    | none => .error nilMapAssignment
    | some m => .ok (some (m.insert env.ReservedLabelTenantID r.1), r.2)

/-! ## Validation -/

/-- C1: validation succeeds if and only if exactly one of Label, Source and Value is a
non-empty string. -/
theorem validateTenantConfig_ok_iff (c : TenantConfig) :
    validateTenantConfig c = .ok () ↔
      ([c.Label, c.Source, c.Value].filter (fun x => x ≠ "")).length = 1 := by
  unfold validateTenantConfig
  by_cases hl : c.Label = "" <;> by_cases hs : c.Source = "" <;> by_cases hv : c.Value = "" <;>
    simp [hl, hs, hv, List.filter]

/-- C2: validation fails with the conflicting-configuration error if and only if at least two
of Label, Source and Value are non-empty: every such configuration gets that error, and no
other configuration does. -/
theorem validateTenantConfig_conflicting_iff (c : TenantConfig) :
    validateTenantConfig c = .error ErrTenantStageConflictingLabelSourceAndValue ↔
      2 ≤ ([c.Label, c.Source, c.Value].filter (fun x => x ≠ "")).length := by
  unfold validateTenantConfig
  by_cases hl : c.Label = "" <;> by_cases hs : c.Source = "" <;> by_cases hv : c.Value = "" <;>
    simp [hl, hs, hv, List.filter, ErrTenantStageConflictingLabelSourceAndValue,
      ErrTenantStageEmptyLabelSourceOrValue]

/-- C3: validation fails with the empty-configuration error if and only if Label, Source and
Value are all the empty string. -/
theorem validateTenantConfig_empty_iff (c : TenantConfig) :
    validateTenantConfig c = .error ErrTenantStageEmptyLabelSourceOrValue ↔
      (c.Label = "" ∧ c.Source = "" ∧ c.Value = "") := by
  unfold validateTenantConfig
  by_cases hl : c.Label = "" <;> by_cases hs : c.Source = "" <;> by_cases hv : c.Value = "" <;>
    simp [hl, hs, hv, ErrTenantStageConflictingLabelSourceAndValue,
      ErrTenantStageEmptyLabelSourceOrValue]

/-! ## Processing one entry -/

/-- C4, refuted as stated: handed the nil label set, a stage with only the value "tenant-1"
set panics on the assignment of the reserved tenant label, so no label set comes back that
holds "tenant-1" under it. -/
theorem ProcessOrPanic_value_nil_labels_no_write :
    (tenantStage.mk ⟨"", "", "tenant-1"⟩).ProcessOrPanic ⟨true, "__tenant_id__"⟩
        none (Finmap.singleton "other" (Value.str "x")) none none
      = .error nilMapAssignment ∧
    ¬ ∃ m logs,
      (tenantStage.mk ⟨"", "", "tenant-1"⟩).ProcessOrPanic ⟨true, "__tenant_id__"⟩
          none (Finmap.singleton "other" (Value.str "x")) none none
        = .ok (some m, logs) ∧
      m.lookup "__tenant_id__" = some "tenant-1" := by
  have h : (tenantStage.mk ⟨"", "", "tenant-1"⟩).ProcessOrPanic ⟨true, "__tenant_id__"⟩
      none (Finmap.singleton "other" (Value.str "x")) none none
      = .error nilMapAssignment := by
    simp [tenantStage.ProcessOrPanic]
  refine ⟨h, ?_⟩
  rw [h]
  simp

/-- C4, amended: with only Value set, for every allocated (non-nil) label set and every
extraction map, Process returns normally and the label set then holds the configured value
under the reserved tenant label, whatever it held there before. -/
theorem Process_value_sets_reserved (env : Env) (s : tenantStage) (labels : LabelSet)
    (extracted : Extracted) (t : Option Time) (entry : Option String)
    (hv : s.cfg.Value ≠ "") (hs : s.cfg.Source = "") (hl : s.cfg.Label = "") :
    ∃ m logs,
      s.ProcessOrPanic env (some labels) extracted t entry = .ok (some m, logs) ∧
      m.lookup env.ReservedLabelTenantID = some s.cfg.Value := by
  refine ⟨labels.insert env.ReservedLabelTenantID s.cfg.Value, [], ?_, ?_⟩
  · simp [tenantStage.ProcessOrPanic, hs, hl, hv]
  · exact Finmap.lookup_insert labels

/-- Witness of C4: value "team-a" replaces the tenant "old" the entry carried. -/
theorem Process_value_sets_reserved_witness :
    ("team-a" ≠ "") ∧
    ∃ m logs,
      (tenantStage.mk ⟨"", "", "team-a"⟩).ProcessOrPanic ⟨false, "__tenant_id__"⟩
          (some (Finmap.singleton "__tenant_id__" "old")) ∅ none none
        = .ok (some m, logs) ∧
      m.lookup "__tenant_id__" = some "team-a" :=
  ⟨by decide,
    Process_value_sets_reserved ⟨false, "__tenant_id__"⟩ ⟨⟨"", "", "team-a"⟩⟩
      (Finmap.singleton "__tenant_id__" "old") ∅ none none (by decide) rfl rfl⟩

/-- C5, refuted as stated: handed the nil label set, a stage with the source "tenant_field"
panics on the assignment of the reserved tenant label when the extraction map holds the
string "acme" under the source, so no label set comes back that holds "acme" under it. -/
theorem ProcessOrPanic_source_nil_labels_no_write :
    (tenantStage.mk ⟨"", "tenant_field", ""⟩).ProcessOrPanic ⟨false, "__tenant_id__"⟩
        none (Finmap.singleton "tenant_field" (Value.str "acme")) none none
      = .error nilMapAssignment ∧
    ¬ ∃ m logs,
      (tenantStage.mk ⟨"", "tenant_field", ""⟩).ProcessOrPanic ⟨false, "__tenant_id__"⟩
          none (Finmap.singleton "tenant_field" (Value.str "acme")) none none
        = .ok (some m, logs) ∧
      m.lookup "__tenant_id__" = some "acme" := by
  have h : (tenantStage.mk ⟨"", "tenant_field", ""⟩).ProcessOrPanic ⟨false, "__tenant_id__"⟩
      none (Finmap.singleton "tenant_field" (Value.str "acme")) none none
      = .error nilMapAssignment := by
    simp [tenantStage.ProcessOrPanic, tenantStage.getTenantFromSourceField, getString]
  refine ⟨h, ?_⟩
  rw [h]
  simp

/-- C5, amended: with a non-empty Source, when the extraction map holds a non-empty string
under the source, for every allocated (non-nil) label set Process returns normally and the
label set then holds that string, unchanged, under the reserved tenant label. -/
theorem Process_source_string_sets_reserved (env : Env) (s : tenantStage) (labels : LabelSet)
    (extracted : Extracted) (t : Option Time) (entry : Option String) (v : String)
    (hs : s.cfg.Source ≠ "") (hx : extracted.lookup s.cfg.Source = some (Value.str v))
    (hv : v ≠ "") :
    ∃ m logs,
      s.ProcessOrPanic env (some labels) extracted t entry = .ok (some m, logs) ∧
      m.lookup env.ReservedLabelTenantID = some v := by
  refine ⟨labels.insert env.ReservedLabelTenantID v, [], ?_, ?_⟩
  · simp [tenantStage.ProcessOrPanic, tenantStage.getTenantFromSourceField, getString, hs,
      hx, hv]
  · exact Finmap.lookup_insert labels

/-- Witness of C5: source "tenant_field" with the extracted string "acme". -/
theorem Process_source_string_sets_reserved_witness :
    ∃ m logs,
      (tenantStage.mk ⟨"", "tenant_field", ""⟩).ProcessOrPanic ⟨false, "__tenant_id__"⟩
          (some ∅) (Finmap.singleton "tenant_field" (Value.str "acme")) none none
        = .ok (some m, logs) ∧
      m.lookup "__tenant_id__" = some "acme" :=
  Process_source_string_sets_reserved ⟨false, "__tenant_id__"⟩ ⟨⟨"", "tenant_field", ""⟩⟩
    ∅ (Finmap.singleton "tenant_field" (Value.str "acme")) none none "acme" (by decide)
    Finmap.lookup_singleton_eq (by decide)

/-- C6: with a non-empty Source, when the extraction map has no entry under the source,
Process returns the label set as it received it. -/
theorem Process_source_missing_unchanged (env : Env) (s : tenantStage) (labels : LabelSet)
    (extracted : Extracted) (t : Option Time) (entry : Option String)
    (hs : s.cfg.Source ≠ "") (hx : extracted.lookup s.cfg.Source = none) :
    (s.Process env labels extracted t entry).1 = labels := by
  simp [tenantStage.Process, tenantStage.getTenantFromSourceField, hs, hx]

/-- Witness of C6: source "tenant_field" and an empty extraction map. -/
theorem Process_source_missing_unchanged_witness :
    ((tenantStage.mk ⟨"", "tenant_field", ""⟩).Process ⟨true, "__tenant_id__"⟩
        (Finmap.singleton "team" "blue") ∅ none none).1
      = Finmap.singleton "team" "blue" :=
  Process_source_missing_unchanged ⟨true, "__tenant_id__"⟩ ⟨⟨"", "tenant_field", ""⟩⟩
    (Finmap.singleton "team" "blue") ∅ none none (by decide) (Finmap.lookup_empty _)

/-- C7: with only a non-empty Label (Source empty), when the label set holds a non-empty value
under that label, after Process the reserved tenant label holds that value. -/
theorem Process_label_sets_reserved (env : Env) (s : tenantStage) (labels : LabelSet)
    (extracted : Extracted) (t : Option Time) (entry : Option String) (v : LabelValue)
    (hs : s.cfg.Source = "") (hl : s.cfg.Label ≠ "")
    (hx : labels.lookup s.cfg.Label = some v) (hv : v ≠ "") :
    (s.Process env labels extracted t entry).1.lookup env.ReservedLabelTenantID = some v := by
  simp [tenantStage.Process, tenantStage.getTenantFromLabel, hs, hl, hx, hv,
    Finmap.lookup_insert]

/-- Witness of C7: label "team" and the label set with team = "blue". -/
theorem Process_label_sets_reserved_witness :
    ((tenantStage.mk ⟨"team", "", ""⟩).Process ⟨false, "__tenant_id__"⟩
        (Finmap.singleton "team" "blue") ∅ none none).1.lookup "__tenant_id__"
      = some "blue" :=
  Process_label_sets_reserved ⟨false, "__tenant_id__"⟩ ⟨⟨"team", "", ""⟩⟩
    (Finmap.singleton "team" "blue") ∅ none none "blue" rfl (by decide)
    Finmap.lookup_singleton_eq (by decide)

/-- C8: with only a non-empty Label (Source empty), when the label set has no entry under that
label, Process returns the label set as it received it. -/
theorem Process_label_missing_unchanged (env : Env) (s : tenantStage) (labels : LabelSet)
    (extracted : Extracted) (t : Option Time) (entry : Option String)
    (hs : s.cfg.Source = "") (hl : s.cfg.Label ≠ "")
    (hx : labels.lookup s.cfg.Label = none) :
    (s.Process env labels extracted t entry).1 = labels := by
  simp [tenantStage.Process, tenantStage.getTenantFromLabel, hs, hl, hx]

/-- Witness of C8: label "team" and a label set that has no "team". -/
theorem Process_label_missing_unchanged_witness :
    ((tenantStage.mk ⟨"team", "", ""⟩).Process ⟨true, "__tenant_id__"⟩
        ∅ (Finmap.singleton "team" (Value.str "blue")) none none).1
      = ∅ :=
  Process_label_missing_unchanged ⟨true, "__tenant_id__"⟩ ⟨⟨"team", "", ""⟩⟩
    ∅ (Finmap.singleton "team" (Value.str "blue")) none none rfl (by decide)
    (Finmap.lookup_empty _)

/-- C9: with a non-empty Source, when the extraction map holds under the source a value that
getString rejects, Process returns normally, with the label set as it received it. -/
theorem Process_source_unconvertible_unchanged (env : Env) (s : tenantStage)
    (labels : LabelSet) (extracted : Extracted) (t : Option Time) (entry : Option String)
    (value : Value) (err : String)
    (hs : s.cfg.Source ≠ "") (hx : extracted.lookup s.cfg.Source = some value)
    (hg : getString value = .error err) :
    ∃ logs, s.Process env labels extracted t entry = (labels, logs) := by
  simp [tenantStage.Process, tenantStage.getTenantFromSourceField, hs, hx, hg]

/-- Witness of C9: source "tenant_field" holding a structured value. -/
theorem Process_source_unconvertible_unchanged_witness :
    ∃ logs, (tenantStage.mk ⟨"", "tenant_field", ""⟩).Process ⟨true, "__tenant_id__"⟩
        (Finmap.singleton "team" "blue")
        (Finmap.singleton "tenant_field" (Value.structured "map[string]interface {}"))
        none none
      = (Finmap.singleton "team" "blue", logs) :=
  Process_source_unconvertible_unchanged ⟨true, "__tenant_id__"⟩
    ⟨⟨"", "tenant_field", ""⟩⟩ (Finmap.singleton "team" "blue")
    (Finmap.singleton "tenant_field" (Value.structured "map[string]interface {}"))
    none none (Value.structured "map[string]interface {}") "can't convert value to string"
    (by decide) Finmap.lookup_singleton_eq rfl

/-- C10: Process changes no entry of the label set other than the reserved tenant label: under
every other name the label set holds after the call exactly what it held before (the same
value, or still nothing). -/
theorem Process_frame (env : Env) (s : tenantStage) (labels : LabelSet)
    (extracted : Extracted) (t : Option Time) (entry : Option String) (k : LabelName)
    (hk : k ≠ env.ReservedLabelTenantID) :
    (s.Process env labels extracted t entry).1.lookup k = labels.lookup k := by
  unfold tenantStage.Process
  dsimp only
  split_ifs
  all_goals first
    | rfl
    | exact Finmap.lookup_insert_of_ne labels hk

/-- Witness of C10: the label "team" is kept while the tenant label is written. -/
theorem Process_frame_witness :
    ((tenantStage.mk ⟨"", "", "team-a"⟩).Process ⟨false, "__tenant_id__"⟩
        (Finmap.singleton "team" "blue") ∅ none none).1.lookup "team"
      = (Finmap.singleton "team" "blue" : LabelSet).lookup "team" :=
  Process_frame ⟨false, "__tenant_id__"⟩ ⟨⟨"", "", "team-a"⟩⟩
    (Finmap.singleton "team" "blue") ∅ none none "team" (by decide)

/-! ## Repeated runs, panics and construction -/

/-- Writing back under a name the value the map already holds there leaves the map as it is. -/
theorem insert_lookup_self (labels : LabelSet) (k : LabelName) (v : LabelValue)
    (h : labels.lookup k = some v) : labels.insert k v = labels := by
  apply Finmap.ext_lookup
  intro x
  by_cases hx : x = k
  · subst hx
    rw [Finmap.lookup_insert, h]
  · rw [Finmap.lookup_insert_of_ne labels hx]

/-- C11: Process is idempotent: run a second time with the same extraction map on the label set
the first run produced, it produces that same label set. -/
theorem Process_idempotent (env : Env) (s : tenantStage) (labels : LabelSet)
    (extracted : Extracted) (t t' : Option Time) (entry entry' : Option String) :
    (s.Process env (s.Process env labels extracted t entry).1 extracted t' entry').1
      = (s.Process env labels extracted t entry).1 := by
  unfold tenantStage.Process
  by_cases hs : s.cfg.Source = ""
  · by_cases hl : s.cfg.Label = ""
    · by_cases hv : s.cfg.Value = "" <;> simp [hs, hl, hv]
    · unfold tenantStage.getTenantFromLabel
      cases hx : labels.lookup s.cfg.Label with
      | none => simp [hs, hl, hx]
      | some v =>
        by_cases hv : v = ""
        · simp [hs, hl, hx, hv]
        · by_cases hk : s.cfg.Label = env.ReservedLabelTenantID
          · have h2 : (labels.insert env.ReservedLabelTenantID v).lookup s.cfg.Label = some v := by
              rw [hk]
              exact Finmap.lookup_insert labels
            simp [hs, hl, hx, hv, h2]
          · have h2 : (labels.insert env.ReservedLabelTenantID v).lookup s.cfg.Label = some v := by
              rw [Finmap.lookup_insert_of_ne labels hk]
              exact hx
            simp [hs, hl, hx, hv, h2]
  · by_cases hr : (s.getTenantFromSourceField env extracted).1 = "" <;> simp [hs, hr]

/-- C12, refuted as stated: handed the nil label set, a stage configured with the value
"team-a" panics on the assignment of the reserved tenant label. -/
theorem ProcessOrPanic_nil_labels_panics :
    (tenantStage.mk ⟨"", "", "team-a"⟩).ProcessOrPanic ⟨false, "__tenant_id__"⟩
        none ∅ none none
      = .error nilMapAssignment := by
  simp [tenantStage.ProcessOrPanic]

/-- C12, amended: for every configuration, every allocated (non-nil) label set and every
extraction map, whatever the types of its values, Process completes normally: it neither
panics nor raises an error, and returns the label set and log lines of
`tenantStage.Process`. -/
theorem ProcessOrPanic_allocated_returns (env : Env) (s : tenantStage) (labels : LabelSet)
    (extracted : Extracted) (t : Option Time) (entry : Option String) :
    s.ProcessOrPanic env (some labels) extracted t entry
      = .ok (some (s.Process env labels extracted t entry).1,
          (s.Process env labels extracted t entry).2) := by
  unfold tenantStage.ProcessOrPanic tenantStage.Process
  dsimp only [Option.getD_some]
  split_ifs <;> rfl

/-- C13: for a payload that decodes to the configuration cfg, newTenantStage returns an error
exactly when validateTenantConfig rejects cfg, that error is the validation error, and when
validation succeeds the stage returned holds cfg unchanged. -/
theorem newTenantStage_decoded {Payload : Type}
    (Decode : Payload → Except String TenantConfig) (configs : Payload) (cfg : TenantConfig)
    (hd : Decode configs = .ok cfg) :
    (∀ err, validateTenantConfig cfg = .error err →
        newTenantStage Decode configs = .error err) ∧
    (validateTenantConfig cfg = .ok () → newTenantStage Decode configs = .ok ⟨cfg⟩) ∧
    ((∃ err, newTenantStage Decode configs = .error err) ↔
      (∃ err, validateTenantConfig cfg = .error err)) := by
  unfold newTenantStage
  rw [hd]
  dsimp only
  cases hval : validateTenantConfig cfg with
  | error e => simp
  | ok u =>
    cases u
    simp

/-- Witness of C13: a payload of three strings, decoded field by field, with label and value
both set: construction fails with the conflicting-configuration error. -/
theorem newTenantStage_decoded_witness :
    newTenantStage (fun p : String × String × String => .ok ⟨p.1, p.2.1, p.2.2⟩)
        ("team", "", "team-a")
      = .error ErrTenantStageConflictingLabelSourceAndValue :=
  (newTenantStage_decoded (fun p : String × String × String => .ok ⟨p.1, p.2.1, p.2.2⟩)
    ("team", "", "team-a") ⟨"team", "", "team-a"⟩ rfl).1
    ErrTenantStageConflictingLabelSourceAndValue rfl

/-- C14: when the lookup succeeds and the tenant identifier it yields is the empty string (the
value under the configured Source converts to the empty string, or the configured Label is
present with an empty value), Process returns the label set as it received it, so a reserved
tenant label already there keeps its value. -/
theorem Process_empty_tenant_skips (env : Env) (s : tenantStage) (labels : LabelSet)
    (extracted : Extracted) (t : Option Time) (entry : Option String)
    (h : (s.cfg.Source ≠ "" ∧
            ∃ value, extracted.lookup s.cfg.Source = some value ∧ getString value = .ok "") ∨
         (s.cfg.Source = "" ∧ s.cfg.Label ≠ "" ∧ labels.lookup s.cfg.Label = some "")) :
    (s.Process env labels extracted t entry).1 = labels ∧
    (s.Process env labels extracted t entry).1.lookup env.ReservedLabelTenantID
      = labels.lookup env.ReservedLabelTenantID := by
  have key : (s.Process env labels extracted t entry).1 = labels := by
    rcases h with ⟨hs, value, hx, hg⟩ | ⟨hs, hl, hx⟩
    · simp [tenantStage.Process, tenantStage.getTenantFromSourceField, hs, hx, hg]
    · simp [tenantStage.Process, tenantStage.getTenantFromLabel, hs, hl, hx]
  exact ⟨key, by rw [key]⟩

/-- Witness of C14: the source field holds the empty string and the entry keeps its tenant
"old". -/
theorem Process_empty_tenant_skips_witness :
    ((tenantStage.mk ⟨"", "tenant_field", ""⟩).Process ⟨true, "__tenant_id__"⟩
        (Finmap.singleton "__tenant_id__" "old")
        (Finmap.singleton "tenant_field" (Value.str "")) none none).1
      = Finmap.singleton "__tenant_id__" "old" :=
  (Process_empty_tenant_skips ⟨true, "__tenant_id__"⟩ ⟨⟨"", "tenant_field", ""⟩⟩
    (Finmap.singleton "__tenant_id__" "old")
    (Finmap.singleton "tenant_field" (Value.str "")) none none
    (Or.inl ⟨by decide, Value.str "", Finmap.lookup_singleton_eq, rfl⟩)).1

/-- C15: resolution has the strict priority source, then label, then value, with no fallback:
with a non-empty Source the outcome of Process is the same whatever Label and Value are; with
an empty Source and a non-empty Label it is the same whatever Value is; and with both empty
the outcome is decided by Value alone. -/
theorem Process_priority (env : Env) (labels : LabelSet) (extracted : Extracted)
    (t : Option Time) (entry : Option String) (src lbl lbl' val val' : String) :
    (src ≠ "" →
      (tenantStage.mk ⟨lbl, src, val⟩).Process env labels extracted t entry
        = (tenantStage.mk ⟨lbl', src, val'⟩).Process env labels extracted t entry) ∧
    (lbl ≠ "" →
      (tenantStage.mk ⟨lbl, "", val⟩).Process env labels extracted t entry
        = (tenantStage.mk ⟨lbl, "", val'⟩).Process env labels extracted t entry) ∧
    ((tenantStage.mk ⟨"", "", val⟩).Process env labels extracted t entry
        = (if val = "" then labels else labels.insert env.ReservedLabelTenantID val, [])) := by
  refine ⟨fun hs => ?_, fun hl => ?_, ?_⟩
  · simp [tenantStage.Process, tenantStage.getTenantFromSourceField, hs]
  · simp [tenantStage.Process, tenantStage.getTenantFromLabel, hl]
  · by_cases hv : val = "" <;> simp [tenantStage.Process, hv]

/-- Witness of C15: with the source "tenant_field" missing from the extraction map, a label
"team" that is present and a value "team-a" change nothing in the outcome. -/
theorem Process_priority_witness :
    (tenantStage.mk ⟨"team", "tenant_field", "team-a"⟩).Process ⟨false, "__tenant_id__"⟩
        (Finmap.singleton "team" "blue") ∅ none none
      = (tenantStage.mk ⟨"", "tenant_field", ""⟩).Process ⟨false, "__tenant_id__"⟩
        (Finmap.singleton "team" "blue") ∅ none none :=
  (Process_priority ⟨false, "__tenant_id__"⟩ (Finmap.singleton "team" "blue") ∅ none none
    "tenant_field" "team" "" "team-a" "").1 (by decide)

/-- The tenant identifier read from the extraction map does not depend on the Debug flag. -/
theorem getTenantFromSourceField_fst_debug (d d' : Bool) (reserved : LabelName)
    (s : tenantStage) (extracted : Extracted) :
    (s.getTenantFromSourceField ⟨d, reserved⟩ extracted).1
      = (s.getTenantFromSourceField ⟨d', reserved⟩ extracted).1 := by
  unfold tenantStage.getTenantFromSourceField
  cases extracted.lookup s.cfg.Source with
  | none => rfl
  | some value =>
    dsimp only
    cases getString value <;> rfl

/-- The tenant identifier read from the label set does not depend on the Debug flag. -/
theorem getTenantFromLabel_fst_debug (d d' : Bool) (reserved : LabelName)
    (s : tenantStage) (labels : LabelSet) :
    (s.getTenantFromLabel ⟨d, reserved⟩ labels).1
      = (s.getTenantFromLabel ⟨d', reserved⟩ labels).1 := by
  unfold tenantStage.getTenantFromLabel
  cases labels.lookup s.cfg.Label <;> rfl

/-- C16: the label set Process produces is determined by the stage configuration, the label
set it receives and the extraction map: two runs that agree on these produce the same label
set, whatever the timestamps, the raw lines and the Debug flag of the two runs are. -/
theorem Process_labels_determined (d d' : Bool) (reserved : LabelName) (s : tenantStage)
    (labels : LabelSet) (extracted : Extracted) (t t' : Option Time)
    (entry entry' : Option String) :
    (s.Process ⟨d, reserved⟩ labels extracted t entry).1
      = (s.Process ⟨d', reserved⟩ labels extracted t' entry').1 := by
  unfold tenantStage.Process
  by_cases hs : s.cfg.Source = ""
  · by_cases hl : s.cfg.Label = ""
    · simp [hs, hl]
    · have h := getTenantFromLabel_fst_debug d d' reserved s labels
      by_cases hr : (s.getTenantFromLabel ⟨d, reserved⟩ labels).1 = ""
      · have hr' := hr
        rw [h] at hr'
        simp [hs, hl, hr, hr']
      · have hr' := hr
        rw [h] at hr'
        simp [hs, hl, hr, hr', h]
  · have h := getTenantFromSourceField_fst_debug d d' reserved s extracted
    by_cases hr : (s.getTenantFromSourceField ⟨d, reserved⟩ extracted).1 = ""
    · have hr' := hr
      rw [h] at hr'
      simp [hs, hr, hr']
    · have hr' := hr
      rw [h] at hr'
      simp [hs, hr, hr', h]

/-- C17, at the failing input: with Debug on, a stage with source "tenant_field" and no such
extracted field logs the source name, while a stage with label "team" and no such label logs
under "source" the empty Source of its configuration, and the name "team" occurs nowhere in
the line. -/
theorem Process_missing_label_logs_empty_source :
    ((tenantStage.mk ⟨"", "tenant_field", ""⟩).Process ⟨true, "__tenant_id__"⟩
        ∅ ∅ none none).2
      = [[("level", "debug"),
          ("msg", "the tenant source does not exist in the extracted data"),
          ("source", "tenant_field")]] ∧
    ((tenantStage.mk ⟨"team", "", ""⟩).Process ⟨true, "__tenant_id__"⟩
        ∅ ∅ none none).2
      = [[("level", "debug"),
          ("msg", "the tenant source does not exist in the labels"),
          ("source", "")]] := by
  constructor <;>
    simp [tenantStage.Process, tenantStage.getTenantFromSourceField,
      tenantStage.getTenantFromLabel, debugLog]

/-- C18: Process never introduces an empty reserved tenant label: if the label set it returns
holds the empty string under the reserved tenant label, the label set it received did too. -/
theorem Process_no_new_empty_tenant (env : Env) (s : tenantStage) (labels : LabelSet)
    (extracted : Extracted) (t : Option Time) (entry : Option String)
    (h : (s.Process env labels extracted t entry).1.lookup env.ReservedLabelTenantID
      = some "") :
    labels.lookup env.ReservedLabelTenantID = some "" := by
  unfold tenantStage.Process at h
  dsimp only at h
  split_ifs at h
  all_goals first
    | exact h
    | (rw [Finmap.lookup_insert] at h
       simp_all)

/-- Witness of C18: an entry that came in with an empty tenant label and a stage that skips. -/
theorem Process_no_new_empty_tenant_witness :
    ((tenantStage.mk ⟨"", "tenant_field", ""⟩).Process ⟨false, "__tenant_id__"⟩
        (Finmap.singleton "__tenant_id__" "") ∅ none none).1.lookup "__tenant_id__"
      = some "" ∧
    (Finmap.singleton "__tenant_id__" "" : LabelSet).lookup "__tenant_id__" = some "" :=
  have h : ((tenantStage.mk ⟨"", "tenant_field", ""⟩).Process ⟨false, "__tenant_id__"⟩
      (Finmap.singleton "__tenant_id__" "") ∅ none none).1.lookup "__tenant_id__"
      = some "" := by
    simp [tenantStage.Process, tenantStage.getTenantFromSourceField]
  ⟨h, Process_no_new_empty_tenant ⟨false, "__tenant_id__"⟩ ⟨⟨"", "tenant_field", ""⟩⟩
    (Finmap.singleton "__tenant_id__" "") ∅ none none h⟩

/-- C19: when the configured Label is the reserved tenant label itself (and Source is empty),
Process returns the label set as it received it, for every label set and extraction map. -/
theorem Process_label_reserved_identity (env : Env) (s : tenantStage) (labels : LabelSet)
    (extracted : Extracted) (t : Option Time) (entry : Option String)
    (hs : s.cfg.Source = "") (hl : s.cfg.Label ≠ "")
    (hk : s.cfg.Label = env.ReservedLabelTenantID) :
    (s.Process env labels extracted t entry).1 = labels := by
  unfold tenantStage.Process tenantStage.getTenantFromLabel
  cases hx : labels.lookup s.cfg.Label with
  | none => simp [hs, hl, hx]
  | some v =>
    by_cases hv : v = ""
    · simp [hs, hl, hx, hv]
    · have hself : labels.insert env.ReservedLabelTenantID v = labels :=
        insert_lookup_self labels env.ReservedLabelTenantID v (hk ▸ hx)
      simp [hs, hl, hx, hv, hself]

/-- Witness of C19: label "__tenant_id__" on an entry whose tenant is "acme". -/
theorem Process_label_reserved_identity_witness :
    ((tenantStage.mk ⟨"__tenant_id__", "", ""⟩).Process ⟨false, "__tenant_id__"⟩
        (Finmap.singleton "__tenant_id__" "acme") ∅ none none).1
      = Finmap.singleton "__tenant_id__" "acme" :=
  Process_label_reserved_identity ⟨false, "__tenant_id__"⟩ ⟨⟨"__tenant_id__", "", ""⟩⟩
    (Finmap.singleton "__tenant_id__" "acme") ∅ none none rfl (by decide) rfl

end Stages
